import Mathlib

/-!
Shallow embedding of the PlainQ queue engine (package `litestore` and the
telemetry observer in `internal/server/server.go`), with one theorem per
claim about the natural-language specification.

Conventions of the embedding:
* Go strings are Lean `String`s; timestamps are `Nat` seconds; `uint32` /
  `uint64` / `int32` counters are `Nat` (or `Int` where Go uses a signed
  type); byte slices are `String`s (only their length and identity matter).
* Database tables are lists of row structures; a statement's effect is the
  list transformation the SQL text denotes.
* `database/sql` argument binding is modelled by `bindOK`: executing a
  statement whose text contains `n` placeholders with `m ≠ n` arguments
  fails before the statement runs (the driver reports the placeholder
  count via `NumInput` and `database/sql` rejects the call).
* Fallible Go functions return `Except String α`; a Go `panic` is a
  distinguished constructor where the claims need to see it.
-/

namespace PlainQ

/-- Mirror of `QueueProps` (cache.go): the cached subset of queue
properties.  `EvictionPolicy` is the raw `uint32` enum value. -/
structure QueueProps where
  ID : String
  Name : String
  CreatedAt : Nat
  RetentionPeriodSeconds : Nat
  VisibilityTimeoutSeconds : Nat
  MaxReceiveAttempts : Nat
  EvictionPolicy : Nat
  DeadLetterQueueID : String
deriving Repr, DecidableEq, BEq

/-- Mirror of a persisted `queue_properties` row (schema from
`queryInsertQueuePropRecord` and the scan order in `DescribeQueue`). -/
structure QueuePropsRow where
  queue_id : String
  queue_name : String
  created_at : Nat
  gc_at : Nat
  retention_period_seconds : Nat
  visibility_timeout_seconds : Nat
  max_receive_attempts : Nat
  drop_policy : Nat
  dead_letter_queue_id : String
deriving Repr, DecidableEq, BEq

/-- Mirror of a per-queue message-table row (`queryCreateQueueTable`):
`(msg_id, msg_body, created_at, visible_at, retries)`. -/
structure MsgRow where
  msg_id : String
  msg_body : String
  created_at : Nat
  visible_at : Nat
  retries : Nat
deriving Repr, DecidableEq, BEq

/-- Modelled from the spec: the generated protobuf enum `v1.EvictionPolicy`
(`evictionPolicy: \x7bDrop, DeadLetter\x7d (unspecified treated as Drop)`); the
generated code is not under src/.  Values follow proto numbering with the
unspecified value zero. -/
def EVICTION_POLICY_UNSPECIFIED : Nat := 0

/-- Modelled from the spec: `v1.EvictionPolicy_EVICTION_POLICY_DROP`. -/
def EVICTION_POLICY_DROP : Nat := 1

/-- Modelled from the spec: `v1.EvictionPolicy_EVICTION_POLICY_DEAD_LETTER`. -/
def EVICTION_POLICY_DEAD_LETTER : Nat := 2

/-! Query builders (query.go / part_009), transliterated character for
character.  `\x27` is the apostrophe (SQL single quote). -/

/-- Mirror of `queryDropMessages`. -/
def queryDropMessages (queueID : String) : String :=
  "delete from " ++ queueID ++ " where retries >= ? or datetime(created_at, \x27+? seconds\x27) <= current_timestamp;"

/-- Mirror of `querySelectMoveToDLQ`. -/
def querySelectMoveToDLQ (queueID : String) : String :=
  "select * from " ++ queueID ++ " where retries >= ? or datetime(created_at, \x27+? seconds\x27) <= current_timestamp;"

/-- Mirror of `queryInsertMessages`. -/
def queryInsertMessages (queueID : String) : String :=
  "insert into " ++ queueID ++ " (msg_id, msg_body) values (?, ?);"

/-- Mirror of `queryDeleteMessage`. -/
def queryDeleteMessage (queueID : String) : String :=
  "delete from " ++ queueID ++ " where msg_id = ?;"

/-- Mirror of `querySelectMessages`. -/
def querySelectMessages (queueID : String) : String :=
  "select msg_id, msg_body from " ++ queueID ++ " where visible_at <= current_timestamp and retries <= ? order by created_at limit ?;"

/-- Mirror of `queryUpdateMessages`. -/
def queryUpdateMessages (queueID : String) : String :=
  "update " ++ queueID ++ " set visible_at = ?, retries = retries + 1 where msg_id = ?;"

/-- Number of bindable `?` placeholders in a SQL statement, as the SQLite
tokenizer sees it: a `?` inside a single-quoted string literal is literal
text, not a parameter.  The accumulator tracks whether the scan position is
inside a string literal. -/
def sqlParamCountAux : List Char → Bool → Nat
  | [], _ => 0
  | c :: rest, inStr =>
    if c = '\x27' then sqlParamCountAux rest (!inStr)
    else if c = '?' && !inStr then sqlParamCountAux rest inStr + 1
    else sqlParamCountAux rest inStr

/-- Placeholder count of a statement. -/
def sqlParamCount (q : String) : Nat :=
  sqlParamCountAux q.data false

/-- Models `database/sql` argument binding: a statement executes only when
the number of supplied arguments equals the number of placeholders in its
text; otherwise the call fails with `sql: expected N arguments, got M`. -/
def bindOK (q : String) (args : List Nat) : Bool :=
  args.length == sqlParamCount q

/-- The error `database/sql` returns when `bindOK` fails. -/
def sqlErrArgCount : String := "sql: expected 1 arguments, got 2"

/-- Expiry predicate the GC statements were written for (spec:
`retries ≥ maxAttempts OR createdAt + retentionSeconds ≤ now`). -/
def msgExpired (maxAttempts retention now : Nat) (m : MsgRow) : Bool :=
  decide (maxAttempts ≤ m.retries) || decide (m.created_at + retention ≤ now)

/-- Mirror of `dropMessages` (gc.go 198–216): executes
`queryDropMessages` with the two arguments `MaxReceiveAttempts` and
`RetentionPeriodSeconds`.  The statement text holds only one placeholder —
the second `?` sits inside the string literal `\x27+? seconds\x27` — so binding
fails and the call returns an error with the table untouched.  The ok
branch (reachable only if the counts matched) applies the statement as
written: the retention disjunct compares `datetime(created_at,
\x27+? seconds\x27)`, an invalid modifier yielding NULL, so only the retry
disjunct would ever delete a row. -/
def dropMessages (props : QueueProps) (table : List MsgRow) :
    Except String (Nat × List MsgRow) :=
  if bindOK (queryDropMessages props.ID)
      [props.MaxReceiveAttempts, props.RetentionPeriodSeconds] then
    let keep := table.filter fun m => !(decide (props.MaxReceiveAttempts ≤ m.retries))
    .ok (table.length - keep.length, keep)
  else
    .error sqlErrArgCount

/-- Mirror of `moveMessagesToDLQ` (gc.go 218–258): runs
`querySelectMoveToDLQ` with two arguments against its single placeholder,
so the query fails and the call errors with both tables untouched.  Were
binding to succeed, each selected row would be scanned into two
destinations although `select *` yields five columns (`rows.Scan` then
errors on the first row), the scanned id and body would be inserted into
the dead-letter queue's table, and no statement ever deletes the originals
from the source table.  The result carries the moved count, the (unchanged)
source table and the dead-letter table. -/
def moveMessagesToDLQ (props : QueueProps) (src dlq : List MsgRow) :
    Except String (Nat × List MsgRow × List MsgRow) :=
  if bindOK (querySelectMoveToDLQ props.ID)
      [props.MaxReceiveAttempts, props.RetentionPeriodSeconds] then
    let rows := src.filter fun m => decide (props.MaxReceiveAttempts ≤ m.retries)
    match rows with
    | [] => .ok (0, src, dlq)
    | _ :: _ => .error "scan message record: sql: expected 5 destination arguments in Scan, not 2"
  else
    .error sqlErrArgCount

/-- Mirror of `Storage.sweep` (gc.go 137–196) restricted to the state the
claims observe: the cached properties of the queue, its message table and
the dead-letter queue's message table.  The cache lookup is given as the
`props` argument (a cache miss is the separate fatal branch), and the
`gc_at` update touches only `queue_properties`, not the message tables, so
it is elided here.  Policy dispatch and error propagation follow the
source; on error the transaction rolls back, leaving both tables as they
were. -/
def sweep (props : QueueProps) (src dlq : List MsgRow) :
    Except String (Nat × List MsgRow × List MsgRow) :=
  if props.EvictionPolicy = EVICTION_POLICY_DROP then
    match dropMessages props src with
    | .ok (n, src') => .ok (n, src', dlq)
    | .error e => .error e
  else if props.EvictionPolicy = EVICTION_POLICY_DEAD_LETTER then
    moveMessagesToDLQ props src dlq
  else
    .error "unsupported drop policy"

/-- Concrete queue id used by the counterexamples: a structurally valid
20-character lowercase identifier. -/
def cQueueID : String := "c0000000000000000000"

/-- Concrete dead-letter queue id used by the counterexamples. -/
def cDLQID : String := "c0000000000000000001"

/-- Concrete properties of a queue with `Drop` policy. -/
def cDropProps (maxA ret : Nat) : QueueProps :=
  { ID := cQueueID, Name := "orders", CreatedAt := 0,
    RetentionPeriodSeconds := ret, VisibilityTimeoutSeconds := 30,
    MaxReceiveAttempts := maxA, EvictionPolicy := EVICTION_POLICY_DROP,
    DeadLetterQueueID := "" }

/-- Concrete properties of a queue with `DeadLetter` policy. -/
def cDLQProps (maxA ret : Nat) : QueueProps :=
  { ID := cQueueID, Name := "orders", CreatedAt := 0,
    RetentionPeriodSeconds := ret, VisibilityTimeoutSeconds := 30,
    MaxReceiveAttempts := maxA, EvictionPolicy := EVICTION_POLICY_DEAD_LETTER,
    DeadLetterQueueID := cDLQID }

/-- A message that is expired by retry count for `maxReceiveAttempts = 5`. -/
def cExpiredMsg : MsgRow :=
  { msg_id := "01J8ZWCWVQ0000000000000000", msg_body := "a",
    created_at := 0, visible_at := 0, retries := 5 }

/-! Identifier utilities.  Modelled from the spec: `idkit` lives in the
external module servekit and is not under src/; spec section 4.A describes
it ("Queue identifier (QueueID): a 20-character lexicographically sortable
opaque identifier", "Message identifier (MessageID): a 26-character
time-ordered identifier; its embedded creation time is used to record
time-in-queue"). -/

/-- Modelled from the spec: the Crockford base32 alphabet of `idkit.ULID`
message identifiers. -/
def ulidAlphabet : List Char := "0123456789ABCDEFGHJKMNPQRSTVWXYZ".data

/-- One output character of the ULID encoding. -/
def ulidChar (n : Nat) : Char := ulidAlphabet.getD (n % 32) '0'

/-- Modelled from the spec: `idkit.ULID` produces a 26-character
time-ordered message identifier encoding a 48-bit timestamp followed by
80 bits of randomness (here supplied deterministically). -/
def ULID (t rand : Nat) : String :=
  String.mk ((List.range 26).map fun i =>
    ulidChar (((t % 2 ^ 48) * 2 ^ 80 + rand % 2 ^ 80) / 32 ^ (25 - i)))

/-- Modelled from the spec: the base32-hex alphabet of `idkit.XID` queue
identifiers (lowercased, fixed alphabet). -/
def xidAlphabet : List Char := "0123456789abcdefghijklmnopqrstuv".data

/-- Value of one XID character. -/
def xidCharVal (c : Char) : Nat := xidAlphabet.indexOf c

/-- Creation time embedded in an XID: decoded from the timestamp prefix. -/
def xidTime (s : String) : Nat :=
  (s.data.take 8).foldl (fun acc c => acc * 32 + xidCharVal c) 0

/-- Modelled from the spec: `idkit.ParseXID` performs structural validation
(`InvalidID` if a caller-supplied string fails structural validation): it
accepts exactly the 20-character strings over the fixed alphabet and
recovers the embedded creation time; any other string is an error. -/
def ParseXID (s : String) : Except String Nat :=
  if s.length = 20 ∧ s.data.all (fun c => xidAlphabet.contains c) then
    .ok (xidTime s)
  else
    .error "xid: invalid ID"

/-- Modelled from the spec: `idkit.XID` generates a fresh 20-character
queue identifier, indexed here by a generation counter. -/
def XID (n : Nat) : String :=
  String.mk ((List.range 20).map fun i => xidAlphabet.getD (n / 32 ^ (19 - i) % 32) '0')

/-- Mirror of `Storage.Send` (part_016 415–465) on the message table: one
fresh `idkit.ULID` per input message (the generator indexed
deterministically by `tseed`, `rseed` and the position), each row inserted
with the schema defaults `created_at = visible_at = now`, `retries = 0`,
and the ids accumulated in input order.  Telemetry is elided (claim C1
does not observe it). -/
def StorageSend (table : List MsgRow) (bodies : List String) (tseed rseed now : Nat) :
    List String × List MsgRow :=
  let ids := (List.range bodies.length).map fun i => ULID (tseed + i) rseed
  (ids, table ++ (ids.zip bodies).map fun (id, b) =>
    { msg_id := id, msg_body := b, created_at := now, visible_at := now, retries := 0 })

/-- Outcome of `Storage.Delete`: either the Go function panics (its fatal
branch for an id that `idkit.ParseXID` rejects) or it completes with the
successful ids, the failed entries, the table after the deletes and the
creation times recorded into the TimeInQueue histogram. -/
inductive DeleteOutcome where
  | panicked (message : String)
  | completed (successful : List String) (failed : List String)
      (table : List MsgRow) (timesInQueue : List Nat)
deriving Repr, DecidableEq

/-- The panic text of the fatal branch of `Storage.Delete`. -/
def deletePanicMsg (queueID id : String) : String :=
  "queue (id: " ++ queueID ++ ") contains messages with invalid id (id: " ++ id ++ "): xid: invalid ID"

/-- Mirror of the per-id loop of `Storage.Delete` (part_016 583–605).  For
each id the prepared delete statement runs; deleting an absent id succeeds
with zero rows affected, so the statement itself errors only on database
failure, which the model's store does not produce — the `failed` list
stays empty here.  After a successful statement the id is parsed with
`idkit.ParseXID`: success records the embedded creation time and appends
the id to `successful`; failure hits the fatal branch and panics. -/
def deleteLoop (queueID : String) : List String → List MsgRow →
    List String → List Nat → DeleteOutcome
  | [], table, successful, times => .completed successful [] table times
  | id :: rest, table, successful, times =>
    let table' := table.filter fun m => m.msg_id ≠ id
    match ParseXID id with
    | .ok t => deleteLoop queueID rest table' (successful ++ [id]) (times ++ [t])
    | .error _ => .panicked (deletePanicMsg queueID id)

/-- Mirror of `Storage.Delete` (part_016 553–616). -/
def StorageDelete (queueID : String) (table : List MsgRow) (messageIds : List String) :
    DeleteOutcome :=
  deleteLoop queueID messageIds table [] []

/-! Telemetry observer (internal/server/server.go).  VictoriaMetrics
`metrics.GetOrCreateCounter` keys counters by their full metric name: two
calls with the same name share one counter. -/

/-- The global metric registry: metric name to counter value. -/
abbrev Registry := List (String × Nat)

/-- Read a counter (a never-written counter reads 0). -/
def counterGet (reg : Registry) (name : String) : Nat :=
  (reg.lookup name).getD 0

/-- `Inc` on the counter registered under `name`. -/
def counterInc : Registry → String → Registry
  | [], name => [(name, 1)]
  | (k, v) :: rest, name =>
    if k = name then (k, v + 1) :: rest else (k, v) :: counterInc rest name

/-- `Add n` on the counter registered under `name`. -/
def counterAddN : Registry → String → Nat → Registry
  | [], name, n => [(name, n)]
  | (k, v) :: rest, name, n =>
    if k = name then (k, v + n) :: rest else (k, v) :: counterAddN rest name n

/-- Metric name used by `MetricsObserver.EmptyReceives` (server.go
319–336): the source registers this counter under `messages_sent_total`,
not under an empty-receives name. -/
def emptyReceivesMetricName (q : String) : String :=
  "messages_sent_total\x7bqueue=\"" ++ q ++ "\"\x7d"

/-- Metric name used by `MetricsObserver.MessagesSent` (server.go 338–355). -/
def messagesSentMetricName (q : String) : String :=
  "messages_sent_total\x7bqueue=\"" ++ q ++ "\"\x7d"

/-- Metric name used by `MetricsObserver.MessagesReceived` (server.go 262–279). -/
def messagesReceivedMetricName (q : String) : String :=
  "messages_received_total\x7bqueue=\"" ++ q ++ "\"\x7d"

/-- Mirror of the metrics tail of `Storage.Receive` (part_016 542–548):
after the transaction commits, an empty batch increments
`EmptyReceives(queueID)`, then `MessagesReceived(queueID)` is increased by
the batch size. -/
def receiveMetricsTail (reg : Registry) (queueID : String) (messagesCount : Nat) : Registry :=
  let reg1 := if messagesCount = 0 then counterInc reg (emptyReceivesMetricName queueID) else reg
  counterAddN reg1 (messagesReceivedMetricName queueID) messagesCount

/-! Queue-properties cache (cache.go). -/

/-- Association-map mirror of the Go `map[string]*list.Element` indexes.
The map stores a reference to the entry's value; removing the entry from
the recency list does not remove its map key, so an index key can outlive
its list element. -/
def assocPut (m : List (String × QueueProps)) (k : String) (v : QueueProps) :
    List (String × QueueProps) :=
  if m.any (fun kv => kv.1 == k) then
    m.map fun kv => if kv.1 == k then (k, v) else kv
  else
    m ++ [(k, v)]

/-- Mirror of `QueuePropsCache` (cache.go 29–36): the recency list
(`props`, front first) and the two indexes. -/
structure CacheState where
  size : Nat
  order : List QueueProps
  byID : List (String × QueueProps)
  byName : List (String × QueueProps)
deriving Repr, DecidableEq

/-- Mirror of `NewQueuePropsCache` (cache.go 54–67): size 0 falls back to
`queuePropsCacheSize = 1000`. -/
def NewQueuePropsCache (size : Nat) : CacheState :=
  { size := if size = 0 then 1000 else size, order := [], byID := [], byName := [] }

/-- Mirror of `container/list` `MoveToFront`: a no-op when the element is
no longer in the list (`e.list != l`). -/
def moveToFront (order : List QueueProps) (p : QueueProps) : List QueueProps :=
  if order.contains p then p :: order.erase p else order

/-- Mirror of `QueuePropsCache.getByID` (cache.go 69–86): a hit moves the
referenced entry to the front of the recency list and returns its value —
also when the entry has been evicted from the list, because the index
still references it. -/
def cacheGetByID (c : CacheState) (id : String) : Option QueueProps × CacheState :=
  match c.byID.lookup id with
  | some p => (some p, { c with order := moveToFront c.order p })
  | none => (none, c)

/-- Mirror of `QueuePropsCache.getByName` (cache.go 88–105). -/
def cacheGetByName (c : CacheState) (name : String) : Option QueueProps × CacheState :=
  match c.byName.lookup name with
  | some p => (some p, { c with order := moveToFront c.order p })
  | none => (none, c)

/-- Mirror of `QueuePropsCache.put` (cache.go 149–160): when the recency
list is at capacity its back element is removed from the list — the index
maps are left untouched — then the new entry is pushed at the back and
indexed under its id and its name. -/
def cachePut (c : CacheState) (p : QueueProps) : CacheState :=
  let order := if c.order.length = c.size then c.order.dropLast else c.order
  { c with
    order := order ++ [p],
    byID := assocPut c.byID p.ID p,
    byName := assocPut c.byName p.Name p }

/-- Mirror of `QueuePropsCache.delete` (cache.go 162–174). -/
def cacheDelete (c : CacheState) (id name : String) : CacheState :=
  match c.byID.lookup id with
  | none => c
  | some p =>
    { c with
      order := c.order.erase p,
      byID := c.byID.filter (fun kv => kv.1 ≠ id),
      byName := c.byName.filter (fun kv => kv.1 ≠ name) }

/-- Queue properties used by the cache counterexample. -/
def c7Props (id name : String) : QueueProps :=
  { ID := id, Name := name, CreatedAt := 0, RetentionPeriodSeconds := 60,
    VisibilityTimeoutSeconds := 30, MaxReceiveAttempts := 5,
    EvictionPolicy := EVICTION_POLICY_DROP, DeadLetterQueueID := "" }

/-- Three puts into a capacity-2 cache, no intervening reads. -/
def c7Cache : CacheState :=
  cachePut (cachePut (cachePut (NewQueuePropsCache 2) (c7Props "a" "qa"))
    (c7Props "b" "qb")) (c7Props "c" "qc")

/-! Garbage-collection loop (gc.go). -/

/-- Mirror of the per-tick queue loop of `Storage.gc` (gc.go 53–68): the
candidates are swept in order; a sweep error raises a panic (gc.go 60),
surfaced here as the error of the tick. -/
def gcTick (sweepFn : String → Except String Nat) :
    List String → Except String (List (String × Nat))
  | [] => .ok []
  | q :: qs =>
    match sweepFn q with
    | .ok n =>
      match gcTick sweepFn qs with
      | .ok results => .ok ((q, n) :: results)
      | .error e => .error e
    | .error e => .error e

/-- Mirror of the `Storage.gc` routine (gc.go 19–73) over a finite
schedule of timer ticks, each given as its list of candidate queues.  The
single `defer`/`recover` sits at the top of `gc`, outside the `for` loop,
so a panic raised inside a tick is recovered once and the goroutine then
returns: the remaining ticks are never processed.  The result lists, per
processed tick, the sweep outcomes. -/
def gcRun (sweepFn : String → Except String Nat) :
    List (List String) → List (List (String × Nat))
  | [] => []
  | tick :: rest =>
    match gcTick sweepFn tick with
    | .ok results => results :: gcRun sweepFn rest
    | .error _ => []

/-! GC candidate selection (gc.go 75–135, part_009 55–71). -/

/-- Insert into a sorted list (kernel of insertion sort). -/
def insertIntoSorted {α : Type} (le : α → α → Bool) (x : α) : List α → List α
  | [] => [x]
  | y :: ys => if le x y then x :: y :: ys else y :: insertIntoSorted le x ys

/-- Insertion sort by a boolean comparison — the model of SQL `order by`. -/
def insertionSortBy {α : Type} (le : α → α → Bool) : List α → List α
  | [] => []
  | x :: xs => insertIntoSorted le x (insertionSortBy le xs)

/-- Semantics of `querier.selectQueuesForGC` without limit/offset: the ids
of the rows with `gc_at < now − gcTimeout`, ordered by `gc_at`. -/
def gcCandidates (table : List QueuePropsRow) (now gcTimeout : Nat) : List String :=
  ((insertionSortBy (fun a b => decide (a.gc_at ≤ b.gc_at))
    (table.filter fun r => decide (r.gc_at + gcTimeout < now))).map QueuePropsRow.queue_id)

/-- One page of `selectQueuesForGC`: `limit` and `offset` applied to the
candidate list. -/
def selectQueuesForGCPage (cands : List String) (limit offset : Nat) : List String :=
  (cands.drop offset).take limit

/-- Mirror of the paging loop of `Storage.queuesForGC` (gc.go 117–128),
with explicit fuel for the number of iterations observed — the Go loop has
no bound, and `none` means the loop was still running when the fuel ran
out.  Each iteration appends the next page's rows to the accumulated
`queues` and leaves the loop only when the accumulated length differs from
`limit`. -/
def queuesForGCLoop (cands : List String) (limit : Nat) :
    Nat → List String → Nat → Option (List String)
  | 0, _, _ => none
  | fuel + 1, queues, offset =>
    let queues := queues ++ selectQueuesForGCPage cands limit offset
    if queues.length ≠ limit then some queues
    else queuesForGCLoop cands limit fuel queues (offset + limit)

/-- Mirror of `Storage.queuesForGC` (gc.go 75–135): `limit` is the
`QueuesExist` gauge reading at entry. -/
def queuesForGC (table : List QueuePropsRow) (now gcTimeout limit fuel : Nat) :
    Option (List String) :=
  queuesForGCLoop (gcCandidates table now gcTimeout) limit fuel [] 0

/-- The single queue row of the C5 counterexample: swept long ago, so it
is a GC candidate. -/
def c5Row : QueuePropsRow :=
  { queue_id := cQueueID, queue_name := "orders", created_at := 0, gc_at := 0,
    retention_period_seconds := 604800, visibility_timeout_seconds := 30,
    max_receive_attempts := 5, drop_policy := EVICTION_POLICY_DROP,
    dead_letter_queue_id := "" }

/-! Listing queues (part_016 206–245 and part_009 164–201). -/

/-- Modelled from the spec: the generated enum
`v1.ListQueuesRequest_OrderBy` (generated code not under src/), zero value
unspecified. -/
inductive OrderBy where
  | unspecified
  | byId
  | byName
  | byCreatedAt
deriving Repr, DecidableEq

/-- Modelled from the spec: the generated enum
`v1.ListQueuesRequest_SortBy` (generated code not under src/), zero value
unspecified. -/
inductive SortBy where
  | unspecified
  | asc
  | desc
deriving Repr, DecidableEq

/-- The `orderBy` column chosen by `queryListQueues`; the default (also
for the unspecified value) is `queue_id`. -/
def rowSortKey : OrderBy → QueuePropsRow → String
  | .byName, r => r.queue_name
  | .byCreatedAt, r => toString r.created_at
  | _, r => r.queue_id

/-- SQLite BINARY collation on the character lists of two strings:
lexicographic comparison by codepoint (identical to byte order on the
ASCII data the engine stores). -/
def charListLtB : List Char → List Char → Bool
  | [], [] => false
  | [], _ :: _ => true
  | _ :: _, [] => false
  | a :: as, b :: bs =>
    if a.val < b.val then true
    else if b.val < a.val then false
    else charListLtB as bs

/-- Strict string comparison under BINARY collation. -/
def strLtB (a b : String) : Bool := charListLtB a.data b.data

/-- Non-strict string comparison under BINARY collation. -/
def strLeB (a b : String) : Bool := !(strLtB b a)

/-- Semantics of the statement emitted by `queryListQueues`
(part_009 164–201) against the `queue_properties` table: for ascending
sort a non-empty cursor keeps the rows whose `orderBy` column exceeds the
cursor string, for descending the rows below it, and for the unspecified
direction no filter is added (and the order stays the initial `desc`);
the rows are ordered by the `orderBy` column and `limit pageSize` rows
returned.  String comparison is SQLite BINARY collation, i.e. byte order,
which Lean's `String` order matches on ASCII data. -/
def runListQueuesQuery (table : List QueuePropsRow) (pageSize : Int) (cursor : String)
    (orderBy : OrderBy) (sortBy : SortBy) : List QueuePropsRow :=
  let key := rowSortKey orderBy
  let filtered := match sortBy with
    | .asc => if cursor ≠ "" then table.filter (fun r => strLtB cursor (key r)) else table
    | .desc => if cursor ≠ "" then table.filter (fun r => strLtB (key r) cursor) else table
    | .unspecified => table
  let sorted := match sortBy with
    | .asc => insertionSortBy (fun a b => strLeB (key a) (key b)) filtered
    | _ => insertionSortBy (fun a b => strLeB (key b) (key a)) filtered
  sorted.take pageSize.toNat

/-- Mirror of `v1.DescribeQueueResponse` (the fields `Storage` scans and
returns; `CreatedAt` is the timestamp in seconds). -/
structure DescribeQueueResponse where
  QueueId : String
  QueueName : String
  CreatedAt : Nat
  RetentionPeriodSeconds : Nat
  VisibilityTimeoutSeconds : Nat
  MaxReceiveAttempts : Nat
  EvictionPolicy : Nat
  DeadLetterQueueId : String
deriving Repr, DecidableEq, Inhabited

/-- Mirror of the scan loop of `Storage.listQueues` (part_016 657–687):
each row becomes a response, and an unspecified eviction policy is
normalized to Drop on this path. -/
def scanQueueRow (r : QueuePropsRow) : DescribeQueueResponse :=
  let resp : DescribeQueueResponse :=
    { QueueId := r.queue_id, QueueName := r.queue_name, CreatedAt := r.created_at,
      RetentionPeriodSeconds := r.retention_period_seconds,
      VisibilityTimeoutSeconds := r.visibility_timeout_seconds,
      MaxReceiveAttempts := r.max_receive_attempts,
      EvictionPolicy := r.drop_policy, DeadLetterQueueId := r.dead_letter_queue_id }
  if resp.EvictionPolicy = EVICTION_POLICY_UNSPECIFIED then
    { resp with EvictionPolicy := EVICTION_POLICY_DROP }
  else resp

/-- Mirror of `v1.ListQueuesRequest` (the fields `Storage.ListQueues`
reads; `Limit` is the request's `int32`). -/
structure ListQueuesRequest where
  Limit : Int
  Cursor : String
  OrderBy : OrderBy
  SortBy : SortBy
deriving Repr, DecidableEq

/-- Mirror of `v1.ListQueuesResponse`. -/
structure ListQueuesResponse where
  Queues : List DescribeQueueResponse
  NextCursor : String
  HasMore : Bool
deriving Repr, DecidableEq

/-- Mirror of `Storage.ListQueues` (part_016 206–245): a non-positive
limit falls back to `defaultPageSize = 10`; one extra row is requested;
when more than `pageSize` rows come back, the last row is truncated,
`hasMore` is set, and `nextCursor` is set to the **queue id** of the last
kept row (`queues\x5blen(queues)-2\x5d.QueueId`), whatever column the sort used. -/
def StorageListQueues (table : List QueuePropsRow) (input : ListQueuesRequest) :
    ListQueuesResponse :=
  let pageSize : Int := if input.Limit ≤ 0 then 10 else input.Limit
  let limit : Int := pageSize + 1
  let queues := (runListQueuesQuery table limit input.Cursor input.OrderBy input.SortBy).map
    scanQueueRow
  if (queues.length : Int) > pageSize then
    let lastItem := queues.getD (queues.length - 2) default
    { Queues := queues.dropLast, NextCursor := lastItem.QueueId, HasMore := true }
  else
    { Queues := queues, NextCursor := "", HasMore := false }

/-- A `queue_properties` row for the pagination counterexample. -/
def c4Row (id name : String) : QueuePropsRow :=
  { queue_id := id, queue_name := name, created_at := 0, gc_at := 0,
    retention_period_seconds := 604800, visibility_timeout_seconds := 30,
    max_receive_attempts := 5, drop_policy := EVICTION_POLICY_DROP,
    dead_letter_queue_id := "" }

/-- Three queues with 20-character ids and sortable names. -/
def c4Table : List QueuePropsRow :=
  [c4Row "c0000000000000000001" "q01",
   c4Row "c0000000000000000002" "q02",
   c4Row "c0000000000000000003" "q03"]

/-- First page: limit 2, order by name ascending, empty cursor. -/
def c4Page1 : ListQueuesResponse :=
  StorageListQueues c4Table
    { Limit := 2, Cursor := "", OrderBy := .byName, SortBy := .asc }

/-- Second page, threading `cursor = nextCursor` of the first. -/
def c4Page2 : ListQueuesResponse :=
  StorageListQueues c4Table
    { Limit := 2, Cursor := c4Page1.NextCursor, OrderBy := .byName, SortBy := .asc }

/-! Queue creation, description and deletion over the engine state
(part_016 135–204, 247–321, 365–413). -/

/-- Mirror of `v1.CreateQueueRequest` (the fields `Storage.CreateQueue`
reads). -/
structure CreateQueueRequest where
  QueueName : String
  RetentionPeriodSeconds : Nat
  VisibilityTimeoutSeconds : Nat
  MaxReceiveAttempts : Nat
  EvictionPolicy : Nat
  DeadLetterQueueId : String
deriving Repr, DecidableEq

/-- Mirror of the constant `msgVisibilityTimeout` (30 s, part_016 31). -/
def msgVisibilityTimeoutSeconds : Nat := 30

/-- Mirror of the constant `msgRetentionPeriod` (7 days in seconds,
part_016 35). -/
def msgRetentionPeriodSeconds : Nat := 604800

/-- Mirror of the constant `maxReceiveAttempts` (part_016 38). -/
def maxReceiveAttemptsDefault : Nat := 5

/-- The storage-engine state observed by claims C8 and C10: the
`queue_properties` table, the cache, the `QueuesExist` gauge reading and
the id-generation counter indexing `idkit.XID`. -/
structure EngineState where
  propsTable : List QueuePropsRow
  cache : CacheState
  queuesExist : Nat
  nextXid : Nat
deriving Repr

/-- Mirror of `propsToProto` (cache.go 246–259). -/
def propsToProto (p : QueueProps) : DescribeQueueResponse :=
  { QueueId := p.ID, QueueName := p.Name, CreatedAt := p.CreatedAt,
    RetentionPeriodSeconds := p.RetentionPeriodSeconds,
    VisibilityTimeoutSeconds := p.VisibilityTimeoutSeconds,
    MaxReceiveAttempts := p.MaxReceiveAttempts,
    EvictionPolicy := p.EvictionPolicy, DeadLetterQueueId := p.DeadLetterQueueID }

/-- Mirror of `propsFromProto` (cache.go 261–274). -/
def propsFromProto (p : DescribeQueueResponse) : QueueProps :=
  { ID := p.QueueId, Name := p.QueueName, CreatedAt := p.CreatedAt,
    RetentionPeriodSeconds := p.RetentionPeriodSeconds,
    VisibilityTimeoutSeconds := p.VisibilityTimeoutSeconds,
    MaxReceiveAttempts := p.MaxReceiveAttempts,
    EvictionPolicy := p.EvictionPolicy, DeadLetterQueueID := p.DeadLetterQueueId }

/-- Mirror of `Storage.CreateQueue` (part_016 135–204): an empty name is
an InvalidArgument error; a zero-valued numeric parameter falls back to
its configured default; the eviction policy and dead-letter id are
inserted exactly as given (no Drop defaulting).  The insert respects the
table's unique constraints (primary-key `queue_id`, unique `queue_name`);
a violation rolls back with neither cache nor gauge touched.  On commit
the properties — with a zero `CreatedAt`, as in the Go struct literal —
are put into the cache and the gauge is incremented.  The row's
`created_at` and `gc_at` take the schema defaults (`current_timestamp`,
supplied as `now`); the creation of the per-queue message table is
elided. -/
def StorageCreateQueue (st : EngineState) (input : CreateQueueRequest) (now : Nat) :
    Except String (String × EngineState) :=
  let queueID := XID st.nextXid
  if input.QueueName = "" then .error "invalid argument: queue name is empty"
  else
    let maxAttempts := if input.MaxReceiveAttempts = 0 then maxReceiveAttemptsDefault
      else input.MaxReceiveAttempts
    let retention := if input.RetentionPeriodSeconds = 0 then msgRetentionPeriodSeconds
      else input.RetentionPeriodSeconds
    let visibility := if input.VisibilityTimeoutSeconds = 0 then msgVisibilityTimeoutSeconds
      else input.VisibilityTimeoutSeconds
    if st.propsTable.any (fun r => r.queue_id == queueID || r.queue_name == input.QueueName) then
      .error "constraint violation"
    else
      let row : QueuePropsRow :=
        { queue_id := queueID, queue_name := input.QueueName, created_at := now,
          gc_at := now, retention_period_seconds := retention,
          visibility_timeout_seconds := visibility, max_receive_attempts := maxAttempts,
          drop_policy := input.EvictionPolicy,
          dead_letter_queue_id := input.DeadLetterQueueId }
      let props : QueueProps :=
        { ID := queueID, Name := input.QueueName, CreatedAt := 0,
          RetentionPeriodSeconds := retention, VisibilityTimeoutSeconds := visibility,
          MaxReceiveAttempts := maxAttempts, EvictionPolicy := input.EvictionPolicy,
          DeadLetterQueueID := input.DeadLetterQueueId }
      .ok (queueID,
        { st with propsTable := st.propsTable ++ [row],
                  cache := cachePut st.cache props,
                  queuesExist := st.queuesExist + 1,
                  nextXid := st.nextXid + 1 })

/-- Mirror of `Storage.DescribeQueue` (part_016 247–321), restricted to
lookup by queue id (the form the claims exercise; the by-name form is the
symmetric branch): a cache hit returns `propsToProto` of the cached entry;
a miss reads the matching `queue_properties` row — the scanned eviction
policy is returned exactly as stored, with no unspecified-to-Drop
normalization on this path — caches it and returns it; a missing row is an
error. -/
def StorageDescribeQueue (st : EngineState) (queueId : String) :
    Except String (DescribeQueueResponse × EngineState) :=
  match cacheGetByID st.cache queueId with
  | (some p, cache') => .ok (propsToProto p, { st with cache := cache' })
  | (none, _) =>
    match st.propsTable.find? (fun r => r.queue_id == queueId) with
    | some r =>
      let resp : DescribeQueueResponse :=
        { QueueId := r.queue_id, QueueName := r.queue_name, CreatedAt := r.created_at,
          RetentionPeriodSeconds := r.retention_period_seconds,
          VisibilityTimeoutSeconds := r.visibility_timeout_seconds,
          MaxReceiveAttempts := r.max_receive_attempts,
          EvictionPolicy := r.drop_policy,
          DeadLetterQueueId := r.dead_letter_queue_id }
      .ok (resp, { st with cache := cachePut st.cache (propsFromProto resp) })
    | none => .error "not found"

/-- Mirror of `Storage.DeleteQueue` (part_016 365–413): the properties
must be cached; the properties row is deleted and fewer than one affected
row is NotFound (rolling the transaction back); on commit the per-queue
table is dropped (elided), the cache entry removed and the gauge
decremented. -/
def StorageDeleteQueue (st : EngineState) (queueId : String) : Except String EngineState :=
  match cacheGetByID st.cache queueId with
  | (none, _) => .error "queue props not cached"
  | (some props, _) =>
    let affected := (st.propsTable.filter fun r => r.queue_id == queueId).length
    if affected < 1 then .error "not found"
    else
      .ok { st with
        propsTable := st.propsTable.filter (fun r => !(r.queue_id == queueId)),
        cache := cacheDelete st.cache props.ID props.Name,
        queuesExist := st.queuesExist - 1 }

/-- Mirror of `New` (part_016 90–133) on the observed state: the fresh
gauge reads 0, so `countQueues` seeds it to the row count; the cache warms
from the properties listing (the cursor paging of `fillCache` is elided —
every listed row is put, and listing normalizes an unspecified policy to
Drop before the put, as `fillCache` receives `ListQueues` responses). -/
def engineStartup (table : List QueuePropsRow) : EngineState :=
  { propsTable := table,
    cache := table.foldl (fun c r => cachePut c (propsFromProto (scanQueueRow r)))
      (NewQueuePropsCache 1000),
    queuesExist := table.length,
    nextXid := 0 }

/-- The operations of claim C10. -/
inductive EngineOp where
  | createQueue (input : CreateQueueRequest) (now : Nat)
  | deleteQueue (queueId : String)

/-- One engine step; a failed operation rolls back, leaving the state
unchanged. -/
def engineStep (st : EngineState) : EngineOp → EngineState
  | .createQueue input now =>
    match StorageCreateQueue st input now with
    | .ok (_, st') => st'
    | .error _ => st
  | .deleteQueue qid =>
    match StorageDeleteQueue st qid with
    | .ok st' => st'
    | .error _ => st

/-- A sequence of engine operations. -/
def engineRun (st : EngineState) : List EngineOp → EngineState
  | [] => st
  | op :: ops => engineRun (engineStep st op) ops

/-- The gauge invariant of claim C10 together with the primary-key
uniqueness the database enforces on `queue_properties`. -/
def gaugeInv (st : EngineState) : Prop :=
  st.queuesExist = st.propsTable.length ∧
    (st.propsTable.map QueuePropsRow.queue_id).Nodup

/-- Create input of the C8 counterexample and witness: fresh non-empty
name, every other field zero-valued. -/
def c8Input : CreateQueueRequest :=
  { QueueName := "orders", RetentionPeriodSeconds := 0, VisibilityTimeoutSeconds := 0,
    MaxReceiveAttempts := 0, EvictionPolicy := EVICTION_POLICY_UNSPECIFIED,
    DeadLetterQueueId := "" }

/-- Empty engine state for the C8 scenario. -/
def c8State0 : EngineState :=
  { propsTable := [], cache := NewQueuePropsCache 1000, queuesExist := 0, nextXid := 0 }

/-- The id and state created by the C8 scenario. -/
def c8Created : String × EngineState :=
  ((StorageCreateQueue c8State0 c8Input 100).toOption).getD ("", c8State0)

/-- Create input of the C10 witness. -/
def c10Input : CreateQueueRequest :=
  { QueueName := "payments", RetentionPeriodSeconds := 60, VisibilityTimeoutSeconds := 5,
    MaxReceiveAttempts := 3, EvictionPolicy := EVICTION_POLICY_DROP,
    DeadLetterQueueId := "" }

end PlainQ

namespace PlainQ

/-- Claim C3: a Sweep of a queue with policy Drop deletes exactly the
messages satisfying `retries ≥ maxReceiveAttempts` or
`createdAt + retentionSeconds ≤ now` and reports the deleted-row count.
The code cannot do this: `queryDropMessages` contains a single bindable
placeholder (its second `?` is inside the string literal `\x27+? seconds\x27`)
while `dropMessages` binds two arguments, so every execution fails and no
row is ever deleted.  This theorem evaluates the code at the failing input:
for every message table and every parameter pair, the Drop sweep returns
the argument-count error — in particular nothing is deleted even when the
table holds an expired message. -/
theorem C3_drop_sweep_always_errors (table : List MsgRow) (maxA ret : Nat) :
    sweep (cDropProps maxA ret) table [] = .error sqlErrArgCount ∧
      sqlParamCount (queryDropMessages cQueueID) = 1 := by
  constructor
  · show sweep (cDropProps maxA ret) table [] = .error sqlErrArgCount
    have hcount : sqlParamCount (queryDropMessages cQueueID) = 1 := by decide
    simp [sweep, cDropProps, EVICTION_POLICY_DROP, dropMessages, bindOK, hcount]
  · decide

/-- Claim C2: after a DeadLetter sweep, every expired message has been
inserted into the dead-letter table and deleted from the source table, and
the dropped-count equals the number of such messages.  The code cannot do
this: `querySelectMoveToDLQ` has one bindable placeholder but is executed
with two arguments, so the select fails and the sweep returns an error with
both tables untouched (and even with the binding repaired, the scan reads
two destinations from five selected columns and no statement deletes the
originals).  This theorem evaluates the code at the failing input: for
every source and dead-letter table the DeadLetter sweep errors, so in
particular an expired message is neither moved nor deleted. -/
theorem C2_deadletter_sweep_always_errors (src dlq : List MsgRow) (maxA ret : Nat) :
    sweep (cDLQProps maxA ret) src dlq = .error sqlErrArgCount ∧
      sqlParamCount (querySelectMoveToDLQ cQueueID) = 1 := by
  constructor
  · show sweep (cDLQProps maxA ret) src dlq = .error sqlErrArgCount
    have hcount : sqlParamCount (querySelectMoveToDLQ cQueueID) = 1 := by decide
    simp [sweep, cDLQProps, EVICTION_POLICY_DROP, EVICTION_POLICY_DEAD_LETTER,
      moveMessagesToDLQ, bindOK, hcount]
  · decide

/-- Every generated message identifier has 26 characters. -/
theorem ulid_length (t r : Nat) : (ULID t r).length = 26 := by
  simp [ULID]

/-- `ParseXID` rejects every generated message identifier: a ULID has 26
characters, an XID exactly 20. -/
theorem parseXID_ulid (t r : Nat) : ParseXID (ULID t r) = .error "xid: invalid ID" := by
  have h : (ULID t r).length = 26 := ulid_length t r
  unfold ParseXID
  rw [if_neg]
  rintro ⟨h1, -⟩
  omega

/-- Claim C1: for every message id returned by a successful Send, a
subsequent Delete whose per-id statement succeeds records TimeInQueue and
lists the id in `successful`, the fatal unparseable-id branch being
unreachable for such ids.  The code refutes this: `Send` generates
26-character ULIDs (`idkit.ULID`) while `Delete` parses each deleted id
with `idkit.ParseXID`, which accepts only 20-character XIDs — so for every
id in a Send response the parse fails and Delete takes the fatal panic
branch instead of recording TimeInQueue. -/
theorem C1_delete_panics_on_send_ids (table table2 : List MsgRow) (bodies : List String)
    (tseed rseed now : Nat) (queueID id : String)
    (hid : id ∈ (StorageSend table bodies tseed rseed now).1) :
    StorageDelete queueID table2 [id] = .panicked (deletePanicMsg queueID id) := by
  simp only [StorageSend] at hid
  obtain ⟨i, -, rfl⟩ := List.mem_map.mp hid
  simp [StorageDelete, deleteLoop, parseXID_ulid]

/-- Witness for C1 at a concrete input: the single id returned by sending
one message to an empty queue makes Delete panic. -/
theorem C1_delete_panics_on_send_ids_witness :
    StorageDelete cQueueID [] [ULID 0 0] = .panicked (deletePanicMsg cQueueID (ULID 0 0)) :=
  C1_delete_panics_on_send_ids [] [] ["a"] 0 0 0 cQueueID (ULID 0 0)
    (by simp [StorageSend])

/-- `Inc` adds one to the counter read back under the same name. -/
theorem counterGet_inc_self (reg : Registry) (name : String) :
    counterGet (counterInc reg name) name = counterGet reg name + 1 := by
  induction reg with
  | nil => simp [counterInc, counterGet, List.lookup]
  | cons kv rest ih =>
    obtain ⟨k, v⟩ := kv
    by_cases h : k = name
    · subst h
      simp [counterInc, counterGet, List.lookup]
    · have h2 : (name == k) = false := by
        simp [beq_iff_eq]
        exact fun hh => h hh.symm
      simp [counterInc, counterGet, List.lookup, h, h2]
      simpa [counterGet] using ih

/-- `Add 0` leaves every counter reading unchanged (a fresh entry is
created at zero, which reads the same as an absent one). -/
theorem counterGet_addN_zero (reg : Registry) (name m : String) :
    counterGet (counterAddN reg name 0) m = counterGet reg m := by
  induction reg with
  | nil =>
    by_cases h : m = name
    · subst h
      simp [counterAddN, counterGet, List.lookup]
    · have h2 : (m == name) = false := by simp [beq_iff_eq, h]
      simp [counterAddN, counterGet, List.lookup, h2]
  | cons kv rest ih =>
    obtain ⟨k, v⟩ := kv
    by_cases h : k = name
    · subst h
      simp [counterAddN, counterGet, List.lookup]
    · simp only [counterAddN, if_neg h, counterGet, List.lookup]
      cases hmk : (m == k) with
      | true => simp
      | false => simpa [counterGet] using ih

/-- Claim C9: after a Receive that returns zero messages, EmptyReceives(q)
is incremented while MessagesSent(q) is unchanged.  The code refutes the
frame condition: `MetricsObserver.EmptyReceives` registers its counter
under the metric name `messages_sent_total`, the very name
`MetricsObserver.MessagesSent` uses, so the two handles share one counter
and an empty receive increments the MessagesSent reading by one. -/
theorem C9_empty_receive_increments_messages_sent (reg : Registry) (q : String) :
    counterGet (receiveMetricsTail reg q 0) (messagesSentMetricName q)
        = counterGet reg (messagesSentMetricName q) + 1 ∧
      emptyReceivesMetricName q = messagesSentMetricName q := by
  refine ⟨?_, rfl⟩
  simp [receiveMetricsTail, counterGet_addN_zero, emptyReceivesMetricName,
    messagesSentMetricName, counterGet_inc_self]

/-- Claim C7: the cache holds at most its capacity of entries in both the
id index and the name index, and a put at capacity evicts the
least-recently-used entry.  The code refutes both parts: `put` evicts the
back of the recency list, which is the most recently inserted untouched
entry (inserts push to the back while reads move to the front), and the
eviction never deletes the evicted entry's keys from the id/name maps.
After putting a, b, c into a capacity-2 cache the recency list holds
\x5ba, c\x5d — b was evicted though a is the oldest-untouched — and both indexes
hold three entries, with the evicted b still readable through the index. -/
theorem C7_cache_eviction_not_lru_and_indexes_unbounded :
    c7Cache.byID.length = 3 ∧ c7Cache.byName.length = 3 ∧
      c7Cache.order.map QueueProps.ID = ["a", "c"] ∧
      (cacheGetByID c7Cache "b").1 = some (c7Props "b" "qb") := by
  refine ⟨rfl, rfl, rfl, rfl⟩

/-- Claim C6: a panic in a single Sweep aborts only the current tick and
the GC loop still processes later timer ticks.  The code refutes this: the
`defer`/`recover` of `Storage.gc` sits outside the `for` loop, so after the
recover the goroutine returns and no later tick is processed — here a
schedule whose first tick panics produces no processed tick at all,
whatever the remaining schedule holds. -/
theorem C6_sweep_panic_kills_gc_loop (sweepFn : String → Except String Nat)
    (q e : String) (h : sweepFn q = .error e) (rest : List (List String)) :
    gcRun sweepFn ([q] :: rest) = [] := by
  simp [gcRun, gcTick, h]

/-- Witness for C6 at a concrete input: a sweep that fails on queue "a"
leaves the tick for queue "b" unprocessed. -/
theorem C6_sweep_panic_kills_gc_loop_witness :
    gcRun (fun q => if q = "a" then .error "sweep failed" else .ok 0) [["a"], ["b"]] = [] :=
  C6_sweep_panic_kills_gc_loop (fun q => if q = "a" then .error "sweep failed" else .ok 0)
    "a" "sweep failed" rfl [["b"]]

/-- The paging loop never leaves its stuck state: once the accumulated
list holds exactly `limit = 1` row of the single candidate and the offset
has passed the candidate list, every further page is empty, the
accumulated length stays equal to `limit`, and the loop runs forever. -/
theorem queuesForGCLoop_single_stuck (q : String) (fuel : Nat) :
    ∀ offset : Nat, 1 ≤ offset → queuesForGCLoop [q] 1 fuel [q] offset = none := by
  induction fuel with
  | zero => intro offset _; rfl
  | succ n ih =>
    intro offset h
    have hdrop : (List.drop offset [q]) = [] := by
      apply List.drop_eq_nil_of_le
      simpa using h
    simp only [queuesForGCLoop, selectQueuesForGCPage, hdrop, List.take_nil,
      List.append_nil, List.length_singleton, ne_eq, not_true_eq_false, if_false]
    exact ih (offset + 1) (by omega)

/-- Claim C5: for every database state the GC candidate-selection pass
terminates, stopping as soon as a query returns fewer than a full page.
The code refutes this: the loop leaves only when the *accumulated* row
count differs from the page size, so whenever every existing queue is a
candidate (first page full, later pages empty) the accumulated count stays
equal to the page size and the loop queries forever with growing offsets.
With a single queue whose `gc_at` is stale and `QueuesExist = 1`, no
amount of fuel makes the loop return. -/
theorem C5_candidate_paging_never_terminates (fuel : Nat) :
    queuesForGC [c5Row] 100 50 1 fuel = none := by
  have hc : gcCandidates [c5Row] 100 50 = [cQueueID] := by rfl
  cases fuel with
  | zero => rfl
  | succ n =>
    unfold queuesForGC
    rw [hc]
    simp only [queuesForGCLoop, selectQueuesForGCPage, List.drop_zero, List.take_cons,
      List.take_nil, List.nil_append, List.length_singleton, ne_eq, not_true_eq_false,
      if_false]
    exact queuesForGCLoop_single_stuck cQueueID n 1 (by omega)

/-- Claim C4: when storage returns more than `limit` rows, the response
truncates to `limit` rows with `hasMore = true` and `nextCursor` equal to
the `orderBy` column value of the last kept row, so threading the cursor
pages through every queue exactly once.  The code refutes this:
`Storage.ListQueues` always sets `nextCursor` to the *queue id* of the
last kept row while `queryListQueues` filters the next page by comparing
the *orderBy column* with the cursor.  Over three queues with limit 2,
order-by-name ascending: page one keeps q01 and q02 but its `nextCursor`
is the queue id `c0000000000000000002`, not the sort key `q02`; threading
it, page two compares every queue name with that id (all names exceed it)
and returns q01 and q02 again, so queues repeat and q03 is never
reached. -/
theorem C4_next_cursor_uses_queue_id_not_sort_key :
    c4Page1.HasMore = true ∧
      c4Page1.NextCursor = "c0000000000000000002" ∧
      c4Page1.NextCursor ≠ "q02" ∧
      (c4Page1.Queues.map DescribeQueueResponse.QueueName) = ["q01", "q02"] ∧
      (c4Page2.Queues.map DescribeQueueResponse.QueueName) = ["q01", "q02"] := by
  refine ⟨rfl, rfl, by decide, rfl, rfl⟩

/-- Overwriting the entries keyed `k` rewrites exactly the value a lookup
of `k` returns. -/
theorem lookup_map_overwrite (m : List (String × QueueProps)) (k : String) (v : QueueProps) :
    List.lookup k (m.map fun kv => if kv.1 == k then (k, v) else kv)
      = (List.lookup k m).map fun _ => v := by
  induction m with
  | nil => rfl
  | cons kv rest ih =>
    obtain ⟨k', v'⟩ := kv
    by_cases h : k' = k
    · subst h
      simp [List.lookup_cons]
    · have h1 : (k' == k) = false := beq_false_of_ne h
      have h2 : (k == k') = false := beq_false_of_ne fun hh => h hh.symm
      simp [List.lookup_cons, h, h1, h2]
      simpa using ih

/-- A lookup hits whenever the `any` guard saw the key. -/
theorem lookup_isSome_of_any (m : List (String × QueueProps)) (k : String)
    (h : (m.any fun kv => kv.1 == k) = true) : (List.lookup k m).isSome = true := by
  induction m with
  | nil => simp at h
  | cons kv rest ih =>
    obtain ⟨k', v'⟩ := kv
    by_cases hk : k' = k
    · subst hk
      simp [List.lookup_cons]
    · have h1 : (k == k') = false := beq_false_of_ne fun hh => hk hh.symm
      have h2 : (k' == k) = false := beq_false_of_ne hk
      rw [List.any_cons, h2, Bool.false_or] at h
      simp [List.lookup_cons, h1, ih h]

/-- Appending a fresh binding is what a lookup of its key finds when the
key was absent before. -/
theorem lookup_append_fresh (m : List (String × QueueProps)) (k : String) (v : QueueProps)
    (h : (m.any fun kv => kv.1 == k) = false) :
    List.lookup k (m ++ [(k, v)]) = some v := by
  induction m with
  | nil => simp [List.lookup_cons]
  | cons kv rest ih =>
    obtain ⟨k', v'⟩ := kv
    rw [List.any_cons] at h
    have h1 : (k' == k) = false := by
      cases hx : (k' == k)
      · rfl
      · rw [hx] at h
        simp at h
    have h2 : (rest.any fun kv => kv.1 == k) = false := by
      cases hx : (rest.any fun kv => kv.1 == k)
      · rfl
      · rw [hx] at h
        simp at h
    have hkk : (k == k') = false := by
      rw [beq_eq_false_iff_ne] at h1 ⊢
      exact fun hh => h1 hh.symm
    simp [List.lookup_cons, hkk, ih h2]

/-- After `assocPut m k v`, a lookup of `k` returns `v`. -/
theorem lookup_assocPut_self (m : List (String × QueueProps)) (k : String) (v : QueueProps) :
    List.lookup k (assocPut m k v) = some v := by
  unfold assocPut
  cases hany : (m.any fun kv => kv.1 == k)
  · rw [if_neg Bool.false_ne_true]
    exact lookup_append_fresh m k v hany
  · rw [if_pos rfl, lookup_map_overwrite]
    have hs := lookup_isSome_of_any m k hany
    cases hl : List.lookup k m with
    | none => rw [hl] at hs; simp at hs
    | some w => simp

/-- Claim C8 (amended): `DescribeQueue` after a successful `CreateQueue`
returns the input with each zero-valued *numeric* field (retention period,
visibility timeout, max receive attempts) replaced by its configured
default, while the eviction policy and dead-letter id come back exactly as
supplied — an unspecified eviction policy is described as Unspecified, not
as Drop (no normalization happens on the CreateQueue or DescribeQueue
path; only the ListQueues scan normalizes). -/
theorem C8_create_describe_roundtrip (st : EngineState) (input : CreateQueueRequest)
    (now : Nat) (qid : String) (st1 : EngineState)
    (h : StorageCreateQueue st input now = .ok (qid, st1)) :
    (StorageDescribeQueue st1 qid).map Prod.fst = .ok
      { QueueId := qid, QueueName := input.QueueName, CreatedAt := 0,
        RetentionPeriodSeconds := if input.RetentionPeriodSeconds = 0
          then msgRetentionPeriodSeconds else input.RetentionPeriodSeconds,
        VisibilityTimeoutSeconds := if input.VisibilityTimeoutSeconds = 0
          then msgVisibilityTimeoutSeconds else input.VisibilityTimeoutSeconds,
        MaxReceiveAttempts := if input.MaxReceiveAttempts = 0
          then maxReceiveAttemptsDefault else input.MaxReceiveAttempts,
        EvictionPolicy := input.EvictionPolicy,
        DeadLetterQueueId := input.DeadLetterQueueId } := by
  simp only [StorageCreateQueue] at h
  by_cases hname : input.QueueName = ""
  · rw [if_pos hname] at h
    exact absurd h (by simp)
  · rw [if_neg hname] at h
    by_cases hcon : (st.propsTable.any fun r =>
        r.queue_id == XID st.nextXid || r.queue_name == input.QueueName) = true
    · rw [if_pos hcon] at h
      exact absurd h (by simp)
    · rw [if_neg hcon] at h
      simp only [Except.ok.injEq, Prod.mk.injEq] at h
      obtain ⟨h1, h2⟩ := h
      subst h1
      subst h2
      simp only [StorageDescribeQueue, cacheGetByID, cachePut]
      rw [lookup_assocPut_self]
      rfl

/-- Witness for C8's amended round-trip at a concrete input: creating
"orders" with all-zero optional fields in an empty engine. -/
theorem C8_create_describe_roundtrip_witness :
    (StorageDescribeQueue c8Created.2 c8Created.1).map Prod.fst = .ok
      { QueueId := c8Created.1, QueueName := c8Input.QueueName, CreatedAt := 0,
        RetentionPeriodSeconds := if c8Input.RetentionPeriodSeconds = 0
          then msgRetentionPeriodSeconds else c8Input.RetentionPeriodSeconds,
        VisibilityTimeoutSeconds := if c8Input.VisibilityTimeoutSeconds = 0
          then msgVisibilityTimeoutSeconds else c8Input.VisibilityTimeoutSeconds,
        MaxReceiveAttempts := if c8Input.MaxReceiveAttempts = 0
          then maxReceiveAttemptsDefault else c8Input.MaxReceiveAttempts,
        EvictionPolicy := c8Input.EvictionPolicy,
        DeadLetterQueueId := c8Input.DeadLetterQueueId } :=
  C8_create_describe_roundtrip c8State0 c8Input 100 c8Created.1 c8Created.2 rfl

/-- Counterexample to C8 as stated: creating a queue with an unspecified
eviction policy and describing it by the returned id yields the policy
Unspecified (0), not Drop (1). -/
theorem C8_unspecified_policy_not_described_as_drop :
    (StorageDescribeQueue c8Created.2 c8Created.1).map (fun r => r.1.EvictionPolicy)
        = .ok EVICTION_POLICY_UNSPECIFIED ∧
      EVICTION_POLICY_UNSPECIFIED ≠ EVICTION_POLICY_DROP := by
  exact ⟨rfl, by decide⟩

/-- Primary-key uniqueness bounds the rows matching one id by one. -/
theorem filter_beq_length_le_one (l : List QueuePropsRow) (x : String)
    (h : (l.map QueuePropsRow.queue_id).Nodup) :
    (l.filter fun r => r.queue_id == x).length ≤ 1 := by
  induction l with
  | nil => simp
  | cons a rest ih =>
    rw [List.map_cons, List.nodup_cons] at h
    obtain ⟨hnotin, hrest⟩ := h
    cases hfa : (a.queue_id == x)
    · simp only [List.filter_cons, hfa, Bool.false_eq_true, if_false]
      exact ih hrest
    · have hfa' : a.queue_id = x := by rwa [beq_iff_eq] at hfa
      have hempty : (rest.filter fun r => r.queue_id == x) = [] := by
        rw [List.filter_eq_nil_iff]
        intro b hb hbx
        rw [beq_iff_eq] at hbx
        exact hnotin (hfa' ▸ hbx ▸ List.mem_map_of_mem QueuePropsRow.queue_id hb)
      simp [List.filter_cons, hfa, hempty]

/-- Splitting a list by a predicate splits its length. -/
theorem length_filter_split (l : List QueuePropsRow) (x : String) :
    (l.filter fun r => !(r.queue_id == x)).length
      = l.length - (l.filter fun r => r.queue_id == x).length := by
  induction l with
  | nil => rfl
  | cons a rest ih =>
    have hle := List.length_filter_le (fun r => r.queue_id == x) rest
    cases hfa : (a.queue_id == x)
    · simp only [List.filter_cons, hfa, Bool.not_false, Bool.false_eq_true, if_false,
        if_true, List.length_cons, ih]
      omega
    · simp only [List.filter_cons, hfa, Bool.not_true, Bool.false_eq_true, if_false,
        if_true, List.length_cons, ih]
      omega

/-- Filtering preserves the uniqueness of the id column. -/
theorem nodup_filter_map_queue_id (l : List QueuePropsRow) (p : QueuePropsRow → Bool)
    (h : (l.map QueuePropsRow.queue_id).Nodup) :
    ((l.filter p).map QueuePropsRow.queue_id).Nodup :=
  h.sublist ((List.filter_sublist l).map QueuePropsRow.queue_id)

/-- One engine step preserves the gauge invariant: a successful
CreateQueue adds one row and one gauge unit, a successful DeleteQueue
removes exactly one row (by primary-key uniqueness) and one gauge unit,
and every failed operation rolls back. -/
theorem gaugeInv_step (st : EngineState) (op : EngineOp) (h : gaugeInv st) :
    gaugeInv (engineStep st op) := by
  obtain ⟨hlen, hnodup⟩ := h
  cases op with
  | createQueue input now =>
    cases hc : StorageCreateQueue st input now with
    | error e =>
      simp only [engineStep, hc]
      exact ⟨hlen, hnodup⟩
    | ok pair =>
      obtain ⟨qid, st1⟩ := pair
      simp only [engineStep, hc]
      simp only [StorageCreateQueue] at hc
      by_cases hname : input.QueueName = ""
      · rw [if_pos hname] at hc
        exact absurd hc (by simp)
      · rw [if_neg hname] at hc
        by_cases hcon : (st.propsTable.any fun r =>
            r.queue_id == XID st.nextXid || r.queue_name == input.QueueName) = true
        · rw [if_pos hcon] at hc
          exact absurd hc (by simp)
        · rw [if_neg hcon] at hc
          simp only [Except.ok.injEq, Prod.mk.injEq] at hc
          obtain ⟨-, hst⟩ := hc
          subst hst
          constructor
          · show st.queuesExist + 1 = (st.propsTable ++ [_]).length
            simp [hlen]
          · show ((st.propsTable ++ [_]).map QueuePropsRow.queue_id).Nodup
            rw [List.map_append, List.map_cons, List.map_nil, List.nodup_append]
            refine ⟨hnodup, List.nodup_singleton _, ?_⟩
            intro a ha hb
            rw [List.mem_singleton] at hb
            subst hb
            obtain ⟨r, hr, hrid⟩ := List.mem_map.mp ha
            apply hcon
            rw [List.any_eq_true]
            exact ⟨r, hr, by simp [hrid]⟩
  | deleteQueue qid =>
    cases hc : StorageDeleteQueue st qid with
    | error e =>
      simp only [engineStep, hc]
      exact ⟨hlen, hnodup⟩
    | ok st1 =>
      simp only [engineStep, hc]
      simp only [StorageDeleteQueue] at hc
      split at hc
      · exact absurd hc (by simp)
      · split at hc
        · exact absurd hc (by simp)
        · simp only [Except.ok.injEq] at hc
          subst hc
          rename_i haff
          have hsplit := length_filter_split st.propsTable qid
          have hle1 := filter_beq_length_le_one st.propsTable qid hnodup
          refine ⟨?_, nodup_filter_map_queue_id _ _ hnodup⟩
          show st.queuesExist - 1
            = (st.propsTable.filter fun r => !(r.queue_id == qid)).length
          omega

/-- Running any operation sequence preserves the gauge invariant. -/
theorem gaugeInv_run (st : EngineState) (ops : List EngineOp) (h : gaugeInv st) :
    gaugeInv (engineRun st ops) := by
  induction ops generalizing st with
  | nil => exact h
  | cons op rest ih => exact ih (engineStep st op) (gaugeInv_step st op h)

/-- Claim C10: after engine startup and after every successful CreateQueue
or DeleteQueue, the `QueuesExist` gauge reading equals the number of rows
in `queue_properties`: `New` seeds the fresh gauge with the row count,
`CreateQueue` increments it exactly when its insert commits, and
`DeleteQueue` decrements it exactly when its single-row delete commits.
The hypothesis is the primary-key uniqueness the database guarantees for
the startup table. -/
theorem C10_queuesExist_equals_row_count (table : List QueuePropsRow) (ops : List EngineOp)
    (h : (table.map QueuePropsRow.queue_id).Nodup) :
    (engineRun (engineStartup table) ops).queuesExist
      = (engineRun (engineStartup table) ops).propsTable.length :=
  (gaugeInv_run (engineStartup table) ops ⟨rfl, h⟩).1

/-- Witness for C10 at a concrete input: an empty startup table followed
by one CreateQueue and one DeleteQueue of an absent id. -/
theorem C10_queuesExist_equals_row_count_witness :
    (engineRun (engineStartup [])
        [EngineOp.createQueue c10Input 5, EngineOp.deleteQueue "missing"]).queuesExist
      = (engineRun (engineStartup [])
        [EngineOp.createQueue c10Input 5, EngineOp.deleteQueue "missing"]).propsTable.length :=
  C10_queuesExist_equals_row_count []
    [EngineOp.createQueue c10Input 5, EngineOp.deleteQueue "missing"] (by simp)

end PlainQ
